import Mathlib

/-!
Shallow embedding of the Echo client-side authentication session manager.

The embedded code:
  * the zustand auth store (`useAuthStore`): its state shape and the actions
    `setUser`, `setTokens`, `login`, `signup`, `logout`, `refreshTokens`,
    `checkAuth`, `handleOAuthCallback`, and the `persist` middleware's
    `partialize` projection together with rehydration from storage;
  * the fetch-based `authApi` client (signup / login / logout / getMe /
    refreshToken), each of which throws `Error(detail || fallback)` when the
    HTTP response is not ok;
  * the OAuth callback page effect (`processCallback`).

Remote HTTP behaviour is abstracted as an oracle: each operation receives
either the response of its single call directly (`Except HttpErr _`) or a
`Remote` record of response functions when the tokens used in the calls are
themselves computed by the operation.  JavaScript truthiness tests on
nullable strings (`if (!token) ...`) are modelled by `strTruthy`, and the
`detail || 'fallback'` idiom by `jsOr`.  Every operation additionally returns
the list of network calls it performed, so that trace properties (\"no network
call\", \"retried exactly once\") can be stated.
-/

namespace Echo

/-- The `User` record from the frontend type declarations. -/
structure User where
  id : String
  email : String
  display_name : Option String := none
  github_username : Option String := none
  github_avatar_url : Option String := none
  deriving Repr, DecidableEq

/-- The `AuthState` record: the session fields of the zustand store. -/
structure AuthState where
  user : Option User
  accessToken : Option String
  refreshToken : Option String
  isLoading : Bool
  isAuthenticated : Bool
  deriving Repr, DecidableEq

/-- `AuthResponse` returned by the login/signup endpoints. -/
structure AuthResponse where
  user : User
  access_token : String
  refresh_token : String
  token_type : String := "bearer"
  deriving Repr, DecidableEq

/-- The refresh endpoint's response body. -/
structure RefreshResponse where
  access_token : String
  refresh_token : String
  deriving Repr, DecidableEq

/-- A non-ok HTTP response as seen by the `authApi` client: the parsed JSON
error body's optional `detail` field. -/
structure HttpErr where
  detail : Option String := none
  deriving Repr, DecidableEq

/-- JavaScript truthiness of a nullable string: `null` and `""` are falsy. -/
def strTruthy : Option String → Bool
  | none => false
  | some s => s != ""

/-- The JavaScript `x || fallback` idiom on a nullable string. -/
def jsOr : Option String → String → String
  | none, fallback => fallback
  | some s, fallback => if s = "" then fallback else s

namespace authApi

/-- `authApi.login`: returns the JSON body on ok, otherwise throws
`Error(error.detail || 'Login failed')`. -/
def login (resp : Except HttpErr AuthResponse) : Except String AuthResponse :=
  match resp with
  | Except.ok r => Except.ok r
  | Except.error e => Except.error (jsOr e.detail "Login failed")

/-- `authApi.signup`: as `login` with fallback message `'Signup failed'`. -/
def signup (resp : Except HttpErr AuthResponse) : Except String AuthResponse :=
  match resp with
  | Except.ok r => Except.ok r
  | Except.error e => Except.error (jsOr e.detail "Signup failed")

/-- `authApi.logout`: opaque ack on ok, fallback message `'Logout failed'`. -/
def logout (resp : Except HttpErr Unit) : Except String Unit :=
  match resp with
  | Except.ok r => Except.ok r
  | Except.error e => Except.error (jsOr e.detail "Logout failed")

/-- `authApi.getMe`: the current-user fetch, fallback `'Failed to fetch user'`. -/
def getMe (resp : Except HttpErr User) : Except String User :=
  match resp with
  | Except.ok u => Except.ok u
  | Except.error e => Except.error (jsOr e.detail "Failed to fetch user")

/-- `authApi.refreshToken`: fallback message `'Token refresh failed'`. -/
def refreshToken (resp : Except HttpErr RefreshResponse) : Except String RefreshResponse :=
  match resp with
  | Except.ok r => Except.ok r
  | Except.error e => Except.error (jsOr e.detail "Token refresh failed")

end authApi

/-- Oracle for the remote endpoints whose request token is computed by the
operation itself: the response depends on the bearer/refresh token sent. -/
structure Remote where
  getMe : String → Except HttpErr User
  refresh : String → Except HttpErr RefreshResponse

/-- One network call performed by a store operation, recording the
credentials it was made with. -/
inductive ApiCall where
  | loginCall (email password : String)
  | signupCall (email password : String) (displayName : Option String)
  | logoutCall (accessToken : String)
  | getMeCall (accessToken : String)
  | refreshCall (refreshToken : String)
  deriving Repr, DecidableEq

/-- Is this call a current-user fetch (`GET /api/auth/me`)? -/
def ApiCall.isGetMe : ApiCall → Bool
  | ApiCall.getMeCall _ => true
  | _ => false

namespace AuthStore

/-- The store's initial state: all-null, `isLoading = true`. -/
def initialState : AuthState :=
  { user := none, accessToken := none, refreshToken := none
    isLoading := true, isAuthenticated := false }

/-- The fully cleared session state. -/
def clearedState : AuthState :=
  { user := none, accessToken := none, refreshToken := none
    isLoading := false, isAuthenticated := false }

/-- The `set({user: null, accessToken: null, refreshToken: null,
isAuthenticated: false, isLoading: false})` update used by `logout` and
`checkAuth`'s failure exit. -/
def clearAll (s : AuthState) : AuthState :=
  { s with user := none, accessToken := none, refreshToken := none
           isAuthenticated := false, isLoading := false }

/-- `setUser`: stores the user and derives `isAuthenticated = !!user`. -/
def setUser (u : Option User) (s : AuthState) : AuthState :=
  { s with user := u, isAuthenticated := u.isSome, isLoading := false }

/-- `setTokens`: stores both tokens, touching nothing else. -/
def setTokens (accessToken refreshToken : String) (s : AuthState) : AuthState :=
  { s with accessToken := some accessToken, refreshToken := some refreshToken }

/-- `login`: sets `isLoading`, calls `authApi.login`; on success installs the
whole response, on failure only resets `isLoading` and rethrows. -/
def login (email password : String) (resp : Except HttpErr AuthResponse)
    (s : AuthState) : AuthState × Except String Unit × List ApiCall :=
  let s1 : AuthState := { s with isLoading := true }
  match authApi.login resp with
  | Except.ok r =>
      ({ s1 with user := some r.user, accessToken := some r.access_token
                 refreshToken := some r.refresh_token
                 isAuthenticated := true, isLoading := false },
       Except.ok (), [ApiCall.loginCall email password])
  | Except.error msg =>
      ({ s1 with isLoading := false }, Except.error msg,
       [ApiCall.loginCall email password])

/-- `signup`: same contract as `login` via the signup endpoint. -/
def signup (email password : String) (displayName : Option String)
    (resp : Except HttpErr AuthResponse) (s : AuthState) :
    AuthState × Except String Unit × List ApiCall :=
  let s1 : AuthState := { s with isLoading := true }
  match authApi.signup resp with
  | Except.ok r =>
      ({ s1 with user := some r.user, accessToken := some r.access_token
                 refreshToken := some r.refresh_token
                 isAuthenticated := true, isLoading := false },
       Except.ok (), [ApiCall.signupCall email password displayName])
  | Except.error msg =>
      ({ s1 with isLoading := false }, Except.error msg,
       [ApiCall.signupCall email password displayName])

/-- `logout`: best-effort remote logout when an access token is held (the
call's outcome `resp` is caught and ignored), then unconditionally clears the
session in the `finally` block.  No error escapes to the caller. -/
def logout (resp : Except HttpErr Unit) (s : AuthState) :
    AuthState × List ApiCall :=
  let accessToken := s.accessToken
  let s1 : AuthState := { s with isLoading := true }
  let calls : List ApiCall :=
    match accessToken with
    | some tok => if tok = "" then [] else [ApiCall.logoutCall tok]
    | none => []
  (clearAll s1, calls)

/-- `refreshTokens`: returns `false` at once when no refresh token is held
(JS truthiness); otherwise calls the refresh endpoint — success replaces both
tokens and returns `true`, failure clears user, tokens and `isAuthenticated`
(but not `isLoading`) and returns `false`. -/
def refreshTokens (remote : Remote) (s : AuthState) :
    AuthState × Bool × List ApiCall :=
  match s.refreshToken with
  | none => (s, false, [])
  | some rt =>
    if rt = "" then (s, false, [])
    else
      match authApi.refreshToken (remote.refresh rt) with
      | Except.ok r =>
          ({ s with accessToken := some r.access_token
                    refreshToken := some r.refresh_token },
           true, [ApiCall.refreshCall rt])
      | Except.error _ =>
          ({ s with user := none, accessToken := none, refreshToken := none
                    isAuthenticated := false },
           false, [ApiCall.refreshCall rt])

/-- `checkAuth`: startup session check.  No held access token: just drop
`isLoading`.  Otherwise fetch the current user; on failure attempt one
`refreshTokens` and, if it succeeded and the new access token is truthy,
retry the fetch once with the new token; any remaining failure fully clears
the session. -/
def checkAuth (remote : Remote) (s : AuthState) : AuthState × List ApiCall :=
  let accessToken := s.accessToken
  let s1 : AuthState := { s with isLoading := true }
  match accessToken with
  | none => ({ s1 with isLoading := false }, [])
  | some tok =>
    if tok = "" then ({ s1 with isLoading := false }, [])
    else
      match authApi.getMe (remote.getMe tok) with
      | Except.ok u =>
          ({ s1 with user := some u, isAuthenticated := true, isLoading := false },
           [ApiCall.getMeCall tok])
      | Except.error _ =>
          let res := refreshTokens remote s1
          let s2 := res.1
          let refreshed := res.2.1
          let calls1 := res.2.2
          if refreshed then
            match s2.accessToken with
            | some newTok =>
                if newTok = "" then
                  (clearAll s2, ApiCall.getMeCall tok :: calls1)
                else
                  match authApi.getMe (remote.getMe newTok) with
                  | Except.ok u =>
                      ({ s2 with user := some u, isAuthenticated := true
                                 isLoading := false },
                       ApiCall.getMeCall tok :: calls1 ++ [ApiCall.getMeCall newTok])
                  | Except.error _ =>
                      (clearAll s2,
                       ApiCall.getMeCall tok :: calls1 ++ [ApiCall.getMeCall newTok])
            | none => (clearAll s2, ApiCall.getMeCall tok :: calls1)
          else (clearAll s2, ApiCall.getMeCall tok :: calls1)

/-- `handleOAuthCallback`: store both redirect tokens, then fetch the current
user with the new access token.  Success completes the session; failure only
resets `isLoading` and `isAuthenticated` — the freshly stored tokens stay —
and rethrows. -/
def handleOAuthCallback (remote : Remote) (accessToken refreshToken : String)
    (s : AuthState) : AuthState × Except String Unit × List ApiCall :=
  let s1 : AuthState := { s with isLoading := true }
  let s2 : AuthState := { s1 with accessToken := some accessToken
                                  refreshToken := some refreshToken }
  match authApi.getMe (remote.getMe accessToken) with
  | Except.ok u =>
      ({ s2 with user := some u, isAuthenticated := true, isLoading := false },
       Except.ok (), [ApiCall.getMeCall accessToken])
  | Except.error msg =>
      ({ s2 with isLoading := false, isAuthenticated := false },
       Except.error msg, [ApiCall.getMeCall accessToken])

/-- The subset of the session written to persistent storage. -/
structure PersistedAuth where
  accessToken : Option String
  refreshToken : Option String
  user : Option User
  deriving Repr, DecidableEq

/-- The persist middleware's `partialize` projection: exactly
`{accessToken, refreshToken, user}`. -/
def persistedState (s : AuthState) : PersistedAuth :=
  { accessToken := s.accessToken, refreshToken := s.refreshToken
    user := s.user }

/-- Rehydration at load: the persisted fields are merged over the initial
state, so `isLoading` and `isAuthenticated` keep their initial values. -/
def rehydrate (p : PersistedAuth) : AuthState :=
  { initialState with accessToken := p.accessToken
                      refreshToken := p.refreshToken, user := p.user }

end AuthStore

/-- What the OAuth callback page ends up doing: showing a failure message or
redirecting to the dashboard. -/
inductive CallbackOutcome where
  | failed (message : String)
  | redirected
  deriving Repr, DecidableEq

/-- The `AuthCallbackPage` effect: reads the (already URL-decoded) query
parameters; an error param short-circuits with
`error_description || 'Authentication failed'`; a missing token
short-circuits with `'Missing authentication tokens'`; otherwise it invokes
`handleOAuthCallback` and shows the thrown message on failure.  The returned
`Bool` records whether `handleOAuthCallback` was invoked. -/
def processCallback (remote : Remote)
    (qAccess qRefresh qError qErrorDesc : Option String) (s : AuthState) :
    AuthState × CallbackOutcome × Bool :=
  if strTruthy qError then
    (s, CallbackOutcome.failed (jsOr qErrorDesc "Authentication failed"), false)
  else
    match qAccess, qRefresh with
    | some a, some r =>
        if a = "" ∨ r = "" then
          (s, CallbackOutcome.failed "Missing authentication tokens", false)
        else
          let res := AuthStore.handleOAuthCallback remote a r s
          match res.2.1 with
          | Except.ok _ => (res.1, CallbackOutcome.redirected, true)
          | Except.error msg => (res.1, CallbackOutcome.failed msg, true)
    | _, _ => (s, CallbackOutcome.failed "Missing authentication tokens", false)

namespace AuthStore

/-- Session states reachable by completed store operations from the initial
state, together with the accumulated list of network calls performed over
the whole history.  `reloadStep` models a page reload rebuilding the state
from the persisted projection. -/
inductive ReachableT : AuthState → List ApiCall → Prop where
  | init : ReachableT initialState []
  | setUserStep (u : Option User) {s : AuthState} {t : List ApiCall} :
      ReachableT s t → ReachableT (setUser u s) t
  | setTokensStep (a b : String) {s : AuthState} {t : List ApiCall} :
      ReachableT s t → ReachableT (setTokens a b s) t
  | loginStep (email password : String) (resp : Except HttpErr AuthResponse)
      {s : AuthState} {t : List ApiCall} : ReachableT s t →
      ReachableT (login email password resp s).1 (t ++ (login email password resp s).2.2)
  | signupStep (email password : String) (displayName : Option String)
      (resp : Except HttpErr AuthResponse) {s : AuthState} {t : List ApiCall} :
      ReachableT s t →
      ReachableT (signup email password displayName resp s).1
        (t ++ (signup email password displayName resp s).2.2)
  | logoutStep (resp : Except HttpErr Unit) {s : AuthState} {t : List ApiCall} :
      ReachableT s t → ReachableT (logout resp s).1 (t ++ (logout resp s).2)
  | refreshStep (remote : Remote) {s : AuthState} {t : List ApiCall} :
      ReachableT s t →
      ReachableT (refreshTokens remote s).1 (t ++ (refreshTokens remote s).2.2)
  | checkAuthStep (remote : Remote) {s : AuthState} {t : List ApiCall} :
      ReachableT s t →
      ReachableT (checkAuth remote s).1 (t ++ (checkAuth remote s).2)
  | oauthStep (remote : Remote) (a b : String) {s : AuthState} {t : List ApiCall} :
      ReachableT s t →
      ReachableT (handleOAuthCallback remote a b s).1
        (t ++ (handleOAuthCallback remote a b s).2.2)
  | reloadStep {s : AuthState} {t : List ApiCall} :
      ReachableT s t → ReachableT (rehydrate (persistedState s)) t

/-- Token pairing: the access and refresh tokens are both absent or both
present. -/
def tokenInv (s : AuthState) : Prop := (s.accessToken = none ↔ s.refreshToken = none)

/-- `isAuthenticated` implies a stored user. -/
def userInv (s : AuthState) : Prop := s.isAuthenticated = true → s.user.isSome

/-- `refreshTokens` either leaves the state alone, installs both tokens from
a refresh response, or clears user, tokens and `isAuthenticated`. -/
lemma refreshTokens_state_cases (remote : Remote) (s : AuthState) :
    (refreshTokens remote s).1 = s ∨
    (∃ r : RefreshResponse,
      (refreshTokens remote s).1 =
        { s with accessToken := some r.access_token
                 refreshToken := some r.refresh_token }) ∨
    (refreshTokens remote s).1 =
      { s with user := none, accessToken := none, refreshToken := none
               isAuthenticated := false } := by
  unfold refreshTokens
  cases h : s.refreshToken with
  | none => exact Or.inl rfl
  | some rt =>
    by_cases hrt : rt = ""
    · simp [hrt]
    · cases hr : authApi.refreshToken (remote.refresh rt) with
      | ok r =>
        refine Or.inr (Or.inl ⟨r, ?_⟩)
        simp [hrt, hr]
      | error e =>
        refine Or.inr (Or.inr ?_)
        simp [hrt, hr]

/-- If `refreshTokens` returns `true`, the resulting state holds both tokens
from the refresh response. -/
lemma refreshTokens_true_tokens (remote : Remote) (s : AuthState)
    (h : (refreshTokens remote s).2.1 = true) :
    ∃ r : RefreshResponse,
      (refreshTokens remote s).1.accessToken = some r.access_token ∧
      (refreshTokens remote s).1.refreshToken = some r.refresh_token := by
  unfold refreshTokens at *
  cases hrt : s.refreshToken with
  | none => simp [hrt] at h
  | some rt =>
    by_cases he : rt = ""
    · simp [hrt, he] at h
    · cases hr : authApi.refreshToken (remote.refresh rt) with
      | ok r => exact ⟨r, by simp [hrt, he, hr]⟩
      | error e => simp [hrt, he, hr] at h

/-- `refreshTokens` preserves token pairing. -/
lemma refreshTokens_tokenInv (remote : Remote) (s : AuthState)
    (h : tokenInv s) : tokenInv (refreshTokens remote s).1 := by
  rcases refreshTokens_state_cases remote s with hc | ⟨r, hc⟩ | hc <;>
    simp [hc, tokenInv] at h ⊢
  exact h

/-- `refreshTokens` preserves the user invariant. -/
lemma refreshTokens_userInv (remote : Remote) (s : AuthState)
    (h : userInv s) : userInv (refreshTokens remote s).1 := by
  rcases refreshTokens_state_cases remote s with hc | ⟨r, hc⟩ | hc <;>
    simp [hc, userInv] at h ⊢ <;> exact h

/-- `clearAll` yields the cleared state whatever the input was. -/
lemma clearAll_eq (s : AuthState) : clearAll s = clearedState := rfl

/-- A successful `refreshTokens` ends in the prior state with both tokens
replaced by the refresh response's. -/
lemma refreshTokens_true_state (remote : Remote) (s : AuthState)
    (h : (refreshTokens remote s).2.1 = true) :
    ∃ r : RefreshResponse,
      (refreshTokens remote s).1 =
        { s with accessToken := some r.access_token
                 refreshToken := some r.refresh_token } := by
  unfold refreshTokens at *
  cases hrt : s.refreshToken with
  | none => simp [hrt] at h
  | some rt =>
    by_cases he : rt = ""
    · simp [hrt, he] at h
    · cases hr : authApi.refreshToken (remote.refresh rt) with
      | ok r => exact ⟨r, by simp [hrt, he, hr]⟩
      | error e => simp [hrt, he, hr] at h

/-- The four possible final states of `checkAuth`: direct fetch success,
no-token early exit, full clear, or refresh-then-retry success. -/
lemma checkAuth_state_cases (remote : Remote) (s : AuthState) :
    (∃ u : User, (checkAuth remote s).1 =
        { s with user := some u, isAuthenticated := true, isLoading := false }) ∨
    (checkAuth remote s).1 = { s with isLoading := false } ∨
    (checkAuth remote s).1 = clearedState ∨
    (∃ u : User, ∃ r : RefreshResponse, (checkAuth remote s).1 =
        { s with user := some u, accessToken := some r.access_token
                 refreshToken := some r.refresh_token
                 isAuthenticated := true, isLoading := false }) := by
  unfold checkAuth
  cases ha : s.accessToken with
  | none => right; left; simp
  | some tok =>
    by_cases htok : tok = ""
    · right; left; simp [htok]
    · cases hme : authApi.getMe (remote.getMe tok) with
      | ok u => left; exact ⟨u, by simp [htok, hme]⟩
      | error e =>
        cases hrf : (refreshTokens remote
            { s with accessToken := some tok, isLoading := true }).2.1 with
        | false =>
          right; right; left
          simp [htok, hme, hrf, clearAll_eq]
        | true =>
          obtain ⟨r, hs2⟩ := refreshTokens_true_state remote
            { s with accessToken := some tok, isLoading := true } hrf
          by_cases hnew : r.access_token = ""
          · right; right; left
            simp [htok, hme, hrf, hs2, hnew, clearAll_eq]
          · cases hme2 : authApi.getMe (remote.getMe r.access_token) with
            | ok u =>
              right; right; right
              exact ⟨u, r, by simp [htok, hme, hrf, hs2, hnew, hme2]⟩
            | error e2 =>
              right; right; left
              simp [htok, hme, hrf, hs2, hnew, hme2, clearAll_eq]

/-- `checkAuth` preserves token pairing. -/
lemma checkAuth_tokenInv (remote : Remote) (s : AuthState)
    (h : tokenInv s) : tokenInv (checkAuth remote s).1 := by
  rcases checkAuth_state_cases remote s with ⟨u, hc⟩ | hc | hc | ⟨u, r, hc⟩ <;>
    simp [hc, tokenInv, clearedState] at h ⊢ <;> exact h

/-- `checkAuth` preserves the user invariant. -/
lemma checkAuth_userInv (remote : Remote) (s : AuthState)
    (h : userInv s) : userInv (checkAuth remote s).1 := by
  rcases checkAuth_state_cases remote s with ⟨u, hc⟩ | hc | hc | ⟨u, r, hc⟩ <;>
    simp [hc, userInv, clearedState] at h ⊢ <;> exact h

/-- Every reachable state keeps token pairing. -/
lemma reachable_tokenInv (s : AuthState) (t : List ApiCall)
    (h : ReachableT s t) : tokenInv s := by
  induction h with
  | init => simp [tokenInv, initialState]
  | setUserStep u h ih => simpa [tokenInv, setUser] using ih
  | setTokensStep a b h ih => simp [tokenInv, setTokens]
  | loginStep email password resp h ih =>
    unfold login
    cases hr : authApi.login resp with
    | ok r => simp [tokenInv, hr]
    | error e => simpa [tokenInv, hr] using ih
  | signupStep email password displayName resp h ih =>
    unfold signup
    cases hr : authApi.signup resp with
    | ok r => simp [tokenInv, hr]
    | error e => simpa [tokenInv, hr] using ih
  | logoutStep resp h ih => simp [tokenInv, logout, clearAll]
  | refreshStep remote h ih => exact refreshTokens_tokenInv remote _ ih
  | checkAuthStep remote h ih => exact checkAuth_tokenInv remote _ ih
  | oauthStep remote a b h ih =>
    unfold handleOAuthCallback
    cases hr : authApi.getMe (remote.getMe a) with
    | ok u => simp [tokenInv, hr]
    | error e => simp [tokenInv, hr]
  | reloadStep h ih =>
    simpa [tokenInv, rehydrate, persistedState, initialState] using ih

/-- Every reachable state keeps the user invariant. -/
lemma reachable_userInv (s : AuthState) (t : List ApiCall)
    (h : ReachableT s t) : userInv s := by
  induction h with
  | init => simp [userInv, initialState]
  | setUserStep u h ih =>
    intro hauth
    cases u with
    | none => simp [setUser] at hauth
    | some v => simp [setUser]
  | setTokensStep a b h ih =>
    intro hauth
    simp only [setTokens] at hauth ⊢
    exact ih hauth
  | loginStep email password resp h ih =>
    unfold login
    cases hr : authApi.login resp with
    | ok r => simp [userInv, hr]
    | error e =>
      intro hauth
      simp only [hr] at hauth ⊢
      exact ih hauth
  | signupStep email password displayName resp h ih =>
    unfold signup
    cases hr : authApi.signup resp with
    | ok r => simp [userInv, hr]
    | error e =>
      intro hauth
      simp only [hr] at hauth ⊢
      exact ih hauth
  | logoutStep resp h ih => simp [userInv, logout, clearAll]
  | refreshStep remote h ih => exact refreshTokens_userInv remote _ ih
  | checkAuthStep remote h ih => exact checkAuth_userInv remote _ ih
  | oauthStep remote a b h ih =>
    unfold handleOAuthCallback
    cases hr : authApi.getMe (remote.getMe a) with
    | ok u => simp [userInv, hr]
    | error e => simp [userInv, hr]
  | reloadStep h ih => simp [userInv, rehydrate, initialState]

end AuthStore

open AuthStore

/-- C4: with no stored refresh token, `refreshTokens` returns `false` at
once, performs no network call, and leaves every session field unchanged. -/
theorem refreshTokens_no_token_noop (remote : Remote) (s : AuthState)
    (h : s.refreshToken = none) : refreshTokens remote s = (s, false, []) := by
  unfold refreshTokens
  simp [h]

theorem refreshTokens_no_token_noop_witness :
    AuthStore.refreshTokens
        { getMe := fun _ => Except.error {}, refresh := fun _ => Except.error {} }
        AuthStore.initialState = (AuthStore.initialState, false, []) :=
  refreshTokens_no_token_noop _ _ rfl

/-- C2: a failing login or signup leaves `user`, `accessToken`,
`refreshToken` and `isAuthenticated` exactly as before the call, resets only
`isLoading` to false, and the error thrown carries the server `detail` when
present and non-empty, otherwise the operation's fixed fallback string. -/
theorem login_signup_failure_frame (email password : String)
    (displayName : Option String) (e : HttpErr) (s : AuthState) :
    ((login email password (Except.error e) s).1.user = s.user ∧
     (login email password (Except.error e) s).1.accessToken = s.accessToken ∧
     (login email password (Except.error e) s).1.refreshToken = s.refreshToken ∧
     (login email password (Except.error e) s).1.isAuthenticated = s.isAuthenticated ∧
     (login email password (Except.error e) s).1.isLoading = false) ∧
    ((signup email password displayName (Except.error e) s).1.user = s.user ∧
     (signup email password displayName (Except.error e) s).1.accessToken = s.accessToken ∧
     (signup email password displayName (Except.error e) s).1.refreshToken = s.refreshToken ∧
     (signup email password displayName (Except.error e) s).1.isAuthenticated = s.isAuthenticated ∧
     (signup email password displayName (Except.error e) s).1.isLoading = false) ∧
    (∀ d : String, e.detail = some d → d ≠ "" →
      (login email password (Except.error e) s).2.1 = Except.error d ∧
      (signup email password displayName (Except.error e) s).2.1 = Except.error d) ∧
    (e.detail = none →
      (login email password (Except.error e) s).2.1 = Except.error "Login failed" ∧
      (signup email password displayName (Except.error e) s).2.1 =
        Except.error "Signup failed") := by
  refine ⟨?_, ?_, ?_, ?_⟩
  · simp [login, authApi.login]
  · simp [signup, authApi.signup]
  · intro d hd hne
    constructor <;> simp [login, signup, authApi.login, authApi.signup, jsOr, hd, hne]
  · intro hd
    constructor <;> simp [login, signup, authApi.login, authApi.signup, jsOr, hd]

theorem login_signup_failure_frame_witness :
    (AuthStore.login "e@x.com" "pw"
        (Except.error { detail := some "Invalid credentials" })
        AuthStore.initialState).2.1 = Except.error "Invalid credentials" :=
  ((login_signup_failure_frame "e@x.com" "pw" none
      { detail := some "Invalid credentials" } AuthStore.initialState).2.2.1
    "Invalid credentials" rfl (by decide)).1

/-- C3: logout always terminates in the fully cleared state, whether the
remote logout call succeeds or fails (the model returns no exception: the
source catches and only logs it), and the remote call is made only when an
access token is held — exactly one call with that token. -/
theorem logout_always_clears (resp : Except HttpErr Unit) (s : AuthState) :
    (logout resp s).1 = clearedState ∧
    (strTruthy s.accessToken = false → (logout resp s).2 = []) ∧
    (∀ tok : String, s.accessToken = some tok → tok ≠ "" →
      (logout resp s).2 = [ApiCall.logoutCall tok]) := by
  refine ⟨rfl, ?_, ?_⟩
  · intro h
    unfold logout
    cases ha : s.accessToken with
    | none => simp
    | some tok =>
      simp only [strTruthy, ha] at h
      simp at h
      simp [h]
  · intro tok ha hne
    unfold logout
    simp [ha, hne]

theorem logout_always_clears_witness :
    (AuthStore.logout (Except.error { detail := some "boom" })
        { user := some { id := "1", email := "e@x.com" }, accessToken := some "at"
          refreshToken := some "rt", isLoading := false, isAuthenticated := true }).1 =
      AuthStore.clearedState ∧
    (AuthStore.logout (Except.error { detail := some "boom" })
        { user := some { id := "1", email := "e@x.com" }, accessToken := some "at"
          refreshToken := some "rt", isLoading := false, isAuthenticated := true }).2 =
      [ApiCall.logoutCall "at"] :=
  ⟨(logout_always_clears _ _).1,
   (logout_always_clears _ _).2.2 "at" rfl (by decide)⟩

/-- C7: `handleOAuthCallback T1 T2` whose current-user fetch fails ends with
`accessToken = T1` and `refreshToken = T2` still stored, unauthenticated,
`isLoading = false`, and the fetch error rethrown to the caller. -/
theorem oauth_callback_failure_keeps_tokens (remote : Remote) (t1 t2 : String)
    (s : AuthState) (e : HttpErr) (h : remote.getMe t1 = Except.error e) :
    (handleOAuthCallback remote t1 t2 s).1.accessToken = some t1 ∧
    (handleOAuthCallback remote t1 t2 s).1.refreshToken = some t2 ∧
    (handleOAuthCallback remote t1 t2 s).1.isAuthenticated = false ∧
    (handleOAuthCallback remote t1 t2 s).1.isLoading = false ∧
    (handleOAuthCallback remote t1 t2 s).2.1 =
      Except.error (jsOr e.detail "Failed to fetch user") := by
  unfold handleOAuthCallback authApi.getMe
  simp [h]

theorem oauth_callback_failure_keeps_tokens_witness :
    (AuthStore.handleOAuthCallback
        { getMe := fun _ => Except.error { detail := some "bad token" }
          refresh := fun _ => Except.error {} } "T1" "T2"
        AuthStore.initialState).1.accessToken = some "T1" ∧
    (AuthStore.handleOAuthCallback
        { getMe := fun _ => Except.error { detail := some "bad token" }
          refresh := fun _ => Except.error {} } "T1" "T2"
        AuthStore.initialState).2.1 = Except.error "bad token" := by
  have h := oauth_callback_failure_keeps_tokens
    { getMe := fun _ => Except.error { detail := some "bad token" }
      refresh := fun _ => Except.error {} } "T1" "T2"
    AuthStore.initialState { detail := some "bad token" } rfl
  exact ⟨h.1, by rw [h.2.2.2.2]; rfl⟩

/-- C9: the persisted projection of the session is exactly the
`{accessToken, refreshToken, user}` triple: rehydrating reproduces that
triple identically, while `isLoading` is recomputed to its initial `true`
and `isAuthenticated` to `false` instead of being read from storage; the
concrete triple `"a"/"b"/{id 1, email e@x.com}` round-trips identically. -/
theorem persist_roundtrip :
    (∀ p : PersistedAuth, persistedState (rehydrate p) = p) ∧
    (∀ s : AuthState,
      (rehydrate (persistedState s)).accessToken = s.accessToken ∧
      (rehydrate (persistedState s)).refreshToken = s.refreshToken ∧
      (rehydrate (persistedState s)).user = s.user ∧
      (rehydrate (persistedState s)).isLoading = true ∧
      (rehydrate (persistedState s)).isAuthenticated = false) ∧
    rehydrate (persistedState
        { user := some { id := "1", email := "e@x.com" }, accessToken := some "a"
          refreshToken := some "b", isLoading := false, isAuthenticated := true }) =
      { user := some { id := "1", email := "e@x.com" }, accessToken := some "a"
        refreshToken := some "b", isLoading := true, isAuthenticated := false } :=
  ⟨fun _ => rfl, fun _ => ⟨rfl, rfl, rfl, rfl, rfl⟩, rfl⟩

/-- C10: `refreshTokens` leaves `isLoading` exactly at its prior value on
every path; in particular a failing refresh with `isLoading = true` yields a
cleared session that still shows `isLoading = true`. -/
theorem refreshTokens_isLoading_frame (remote : Remote) (s : AuthState) :
    ((refreshTokens remote s).1.isLoading = s.isLoading) ∧
    (∀ rt : String, ∀ e : HttpErr, s.refreshToken = some rt → rt ≠ "" →
      remote.refresh rt = Except.error e → s.isLoading = true →
      (refreshTokens remote s).1 =
        { user := none, accessToken := none, refreshToken := none
          isLoading := true, isAuthenticated := false }) := by
  constructor
  · rcases refreshTokens_state_cases remote s with hc | ⟨r, hc⟩ | hc <;> simp [hc]
  · intro rt e hrt hne href hload
    unfold refreshTokens authApi.refreshToken
    simp [hrt, hne, href]
    exact hload

theorem refreshTokens_isLoading_frame_witness :
    (AuthStore.refreshTokens
        { getMe := fun _ => Except.error {}
          refresh := fun _ => Except.error { detail := some "invalid" } }
        { user := some { id := "1", email := "e@x.com" }, accessToken := some "at"
          refreshToken := some "rt", isLoading := true, isAuthenticated := true }).1 =
      { user := none, accessToken := none, refreshToken := none
        isLoading := true, isAuthenticated := false } :=
  (refreshTokens_isLoading_frame _ _).2 "rt" { detail := some "invalid" }
    rfl (by decide) rfl rfl

/-- C5: in every session state reachable through completed store operations
(including reloads from persisted storage), the access token is present
exactly when the refresh token is. -/
theorem reachable_token_pairing (s : AuthState) (t : List ApiCall)
    (h : ReachableT s t) : (s.accessToken.isSome ↔ s.refreshToken.isSome) := by
  have hi := reachable_tokenInv s t h
  unfold tokenInv at hi
  cases ha : s.accessToken <;> cases hr : s.refreshToken <;> simp_all

theorem reachable_token_pairing_witness :
    ((AuthStore.setTokens "a" "b" AuthStore.initialState).accessToken.isSome ↔
      (AuthStore.setTokens "a" "b" AuthStore.initialState).refreshToken.isSome) :=
  reachable_token_pairing _ _
    (ReachableT.setTokensStep "a" "b" ReachableT.init)

/-- C6 counterexample: a successful login from the initial state yields a
reachable session whose entire network-call history is the single login call
— it contains no current-user fetch at all — yet `isAuthenticated = true`;
so `isAuthenticated` is not set only by transitions immediately following a
successful current-user fetch performed with a held access token. -/
theorem isAuthenticated_without_identity_fetch :
    ReachableT
      (login "e@x.com" "pw"
        (Except.ok { user := { id := "1", email := "e@x.com" }
                     access_token := "at", refresh_token := "rt" })
        initialState).1
      [ApiCall.loginCall "e@x.com" "pw"] ∧
    (login "e@x.com" "pw"
        (Except.ok { user := { id := "1", email := "e@x.com" }
                     access_token := "at", refresh_token := "rt" })
        initialState).1.isAuthenticated = true ∧
    ∀ c ∈ [ApiCall.loginCall "e@x.com" "pw"], c.isGetMe = false := by
  refine ⟨?_, rfl, by decide⟩
  exact ReachableT.loginStep "e@x.com" "pw" _ ReachableT.init

/-- C6 amended: in every reachable session state `isAuthenticated = true`
implies the stored user is non-null, and any state rehydrated from persisted
storage starts with `isAuthenticated = false`; however `isAuthenticated` can
become true without a bearer-token current-user fetch — login/signup set it
from the credential response and `setUser` sets it from its argument. -/
theorem reachable_isAuthenticated_user (s : AuthState) (t : List ApiCall)
    (h : ReachableT s t) :
    (s.isAuthenticated = true → s.user.isSome) ∧
    (∀ p : PersistedAuth, (rehydrate p).isAuthenticated = false) :=
  ⟨reachable_userInv s t h, fun _ => rfl⟩

theorem reachable_isAuthenticated_user_witness :
    ((AuthStore.login "e@x.com" "pw"
        (Except.ok { user := { id := "1", email := "e@x.com" }
                     access_token := "at", refresh_token := "rt" })
        AuthStore.initialState).1.user.isSome) = true :=
  (reachable_isAuthenticated_user _ _
    (ReachableT.loginStep "e@x.com" "pw"
      (Except.ok { user := { id := "1", email := "e@x.com" }
                   access_token := "at", refresh_token := "rt" })
      ReachableT.init)).1 rfl

/-- C8: the OAuth callback page: an error parameter short-circuits before
any session mutation — with `error=access_denied` and decoded
`error_description=User denied` the failure message is \"User denied\" and
`handleOAuthCallback` is never invoked; an error without a description falls
back to \"Authentication failed\"; both tokens absent without an error gives
the distinct message \"Missing authentication tokens\". -/
theorem processCallback_error_paths (remote : Remote) (s : AuthState)
    (qAccess qRefresh : Option String) :
    (processCallback remote qAccess qRefresh (some "access_denied")
        (some "User denied") s =
      (s, CallbackOutcome.failed "User denied", false)) ∧
    (∀ err : String, err ≠ "" →
      processCallback remote qAccess qRefresh (some err) none s =
        (s, CallbackOutcome.failed "Authentication failed", false)) ∧
    (processCallback remote none none none none s =
      (s, CallbackOutcome.failed "Missing authentication tokens", false)) := by
  refine ⟨?_, ?_, ?_⟩
  · unfold processCallback
    simp [strTruthy, jsOr]
  · intro err hne
    unfold processCallback
    simp [strTruthy, jsOr, hne]
  · unfold processCallback
    simp [strTruthy]

theorem processCallback_error_paths_witness :
    Echo.processCallback
        { getMe := fun _ => Except.error {}, refresh := fun _ => Except.error {} }
        (some "T1") (some "T2") (some "access_denied") (some "User denied")
        AuthStore.initialState =
      (AuthStore.initialState, CallbackOutcome.failed "User denied", false) ∧
    Echo.processCallback
        { getMe := fun _ => Except.error {}, refresh := fun _ => Except.error {} }
        none none (some "access_denied") none AuthStore.initialState =
      (AuthStore.initialState, CallbackOutcome.failed "Authentication failed", false) :=
  ⟨(processCallback_error_paths _ _ _ _).1,
   (processCallback_error_paths _ _ _ _).2.1 "access_denied" (by decide)⟩

/-- C1: `checkAuth` with a held but expired access token (its current-user
fetch fails): when a held refresh token refreshes successfully and the
retried fetch with the new access token succeeds, the run ends authenticated
with the fetched user, the refresh response's tokens, `isLoading = false`,
and exactly two current-user fetches in the trace (the retry happened
exactly once); when the refresh token is absent, the remote refresh fails,
or the retried fetch fails, the run ends in the fully cleared state. -/
theorem checkAuth_expired_token (remote : Remote) (s : AuthState) (tok : String)
    (hTok : s.accessToken = some tok) (hHeld : tok ≠ "")
    (e : HttpErr) (hMe : remote.getMe tok = Except.error e) :
    (∀ rt : String, ∀ r : RefreshResponse, ∀ u : User,
      s.refreshToken = some rt → rt ≠ "" →
      remote.refresh rt = Except.ok r → r.access_token ≠ "" →
      remote.getMe r.access_token = Except.ok u →
      (checkAuth remote s).1 =
        { user := some u, accessToken := some r.access_token
          refreshToken := some r.refresh_token
          isLoading := false, isAuthenticated := true } ∧
      (checkAuth remote s).2.countP (fun c => c.isGetMe) = 2) ∧
    ((s.refreshToken = none ∨
      (∃ rt : String, ∃ e2 : HttpErr, s.refreshToken = some rt ∧
        remote.refresh rt = Except.error e2) ∨
      (∃ rt : String, ∃ r : RefreshResponse, ∃ e2 : HttpErr,
        s.refreshToken = some rt ∧ remote.refresh rt = Except.ok r ∧
        remote.getMe r.access_token = Except.error e2)) →
      (checkAuth remote s).1 = clearedState) := by
  constructor
  · intro rt r u hrt hrtne href hnew hme2
    unfold checkAuth refreshTokens authApi.getMe authApi.refreshToken
    simp [hTok, hHeld, hMe, hrt, hrtne, href, hnew, hme2, List.countP_cons,
      ApiCall.isGetMe]
  · rintro (hrt | ⟨rt, e2, hrt, href⟩ | ⟨rt, r, e2, hrt, href, hme2⟩)
    · unfold checkAuth refreshTokens authApi.getMe
      simp [hTok, hHeld, hMe, hrt, clearAll_eq]
    · by_cases hrtne : rt = ""
      · unfold checkAuth refreshTokens authApi.getMe
        simp [hTok, hHeld, hMe, hrt, hrtne, clearAll_eq]
      · unfold checkAuth refreshTokens authApi.getMe authApi.refreshToken
        simp [hTok, hHeld, hMe, hrt, hrtne, href, clearAll_eq]
    · by_cases hrtne : rt = ""
      · unfold checkAuth refreshTokens authApi.getMe
        simp [hTok, hHeld, hMe, hrt, hrtne, clearAll_eq]
      · by_cases hnew : r.access_token = ""
        · unfold checkAuth refreshTokens authApi.getMe authApi.refreshToken
          simp [hTok, hHeld, hMe, hrt, hrtne, href, hnew, clearAll_eq]
        · unfold checkAuth refreshTokens authApi.getMe authApi.refreshToken
          simp [hTok, hHeld, hMe, hrt, hrtne, href, hnew, hme2, clearAll_eq]

/-- Concrete remote for exercising `checkAuth`'s refresh-and-retry path:
the old access token is expired, the old refresh token refreshes to a new
pair, and the new access token fetches the user. -/
def remoteRetry : Remote :=
  { getMe := fun tk =>
      if tk = "new-at" then Except.ok { id := "1", email := "e@x.com" }
      else Except.error { detail := some "Token expired" }
    refresh := fun rt =>
      if rt = "old-rt" then
        Except.ok { access_token := "new-at", refresh_token := "new-rt" }
      else Except.error { detail := some "Invalid refresh token" } }

theorem checkAuth_expired_token_witness :
    (AuthStore.checkAuth remoteRetry
        { user := none, accessToken := some "old-at", refreshToken := some "old-rt"
          isLoading := false, isAuthenticated := false }).1 =
      { user := some { id := "1", email := "e@x.com" }, accessToken := some "new-at"
        refreshToken := some "new-rt", isLoading := false, isAuthenticated := true } ∧
    (AuthStore.checkAuth remoteRetry
        { user := none, accessToken := some "old-at", refreshToken := some "old-rt"
          isLoading := false, isAuthenticated := false }).2.countP
      (fun c => c.isGetMe) = 2 ∧
    (AuthStore.checkAuth remoteRetry
        { user := some { id := "1", email := "e@x.com" }, accessToken := some "old-at"
          refreshToken := none, isLoading := false, isAuthenticated := true }).1 =
      AuthStore.clearedState := by
  have hs := checkAuth_expired_token remoteRetry
    { user := none, accessToken := some "old-at", refreshToken := some "old-rt"
      isLoading := false, isAuthenticated := false } "old-at" rfl (by decide)
    { detail := some "Token expired" } (by simp [remoteRetry])
  have hf := checkAuth_expired_token remoteRetry
    { user := some { id := "1", email := "e@x.com" }, accessToken := some "old-at"
      refreshToken := none, isLoading := false, isAuthenticated := true } "old-at"
    rfl (by decide) { detail := some "Token expired" } (by simp [remoteRetry])
  have h1 := hs.1 "old-rt" { access_token := "new-at", refresh_token := "new-rt" }
    { id := "1", email := "e@x.com" } rfl (by decide) (by simp [remoteRetry])
    (by decide) (by simp [remoteRetry])
  exact ⟨h1.1, h1.2, hf.2 (Or.inl rfl)⟩

end Echo
